import Mathlib

/-!
Shallow embedding of `ldapauthenticator/ldapauthenticator.py`
(class `LDAPAuthenticator`) and proofs about its behaviour.

The Python source has two entry points:

  * `authenticate(self, handler, data)` — validates the username against
    `valid_username_regex`, rejects absent/blank passwords, builds a DN via
    `self.bind_dn_template.format(username=username)`, binds to the LDAP
    server and, when `allowed_groups` is non-empty, searches each group in
    order for membership.

  * `pre_spawn_start(self, user, spawner)` — when `add_local_user` is set
    and the account is missing, builds a command from `add_user_cmd`
    (replacing the token `USERNAME` and appending the name) and launches it
    with `Popen`, then sleeps 5 seconds and inspects `p.returncode`.

Python-level behaviours that matter here and are embedded explicitly:

  * `str.format` with one keyword argument: `{{`/`}}` are brace escapes, a
    `{field}` whose field text differs from the keyword raises (KeyError in
    CPython; positional fields raise IndexError — the distinction between
    the raising variants is not load-bearing and all are modelled as
    `keyError`), and an unbalanced brace raises ValueError.
  * `str.replace` replaces every non-overlapping occurrence left to right.
  * `str.strip()` trims ASCII whitespace from both ends.
  * `subprocess.Popen.returncode` is `None` until `poll()`, `wait()` or
    `communicate()` has been called on the handle; `time.sleep` does not
    change it.

Exceptions are modelled with `Except`; the directory server is an oracle
(`Directory`) whose `bind`/`search` calls either return a boolean or raise
(`ldap3` raises e.g. `LDAPSocketOpenError` on connection/TLS failure).
Every directory operation performed is recorded in a trace of `DirOp`.
-/

/-- Exceptions that can escape the Python code paths modelled here. -/
inductive PyExn : Type
  /-- `KeyError` from `str.format` on a field that is not the supplied
  keyword (CPython raises IndexError for positional fields; collapsed). -/
  | keyError (field : String)
  /-- `ValueError` from `str.format` on an unbalanced brace. -/
  | valueError (msg : String)
  /-- An exception raised by the `ldap3` library, e.g. connection/TLS
  failure (`LDAPSocketOpenError`) surfacing from `bind`/`search`. -/
  | ldapError (msg : String)
  deriving DecidableEq, Repr

/-- Characters treated as whitespace by Python's `str.strip()` (ASCII part;
the usernames/passwords in play here are ASCII). -/
def pyIsSpace (c : Char) : Bool :=
  c = ' ' || c = '\t' || c = '\n' || c = '\r' || c = '\x0b' || c = '\x0c'

/-- Python `str.strip()`: drop leading and trailing whitespace. -/
def pyStrip (s : String) : String :=
  ⟨((s.data.dropWhile pyIsSpace).reverse.dropWhile pyIsSpace).reverse⟩

/-- Scan the characters of a `str.format` replacement field up to the
closing `}`. Returns the field text and the remaining input, or `none`
when the input ends before a `}` is found. -/
def scanField : List Char → Option (List Char × List Char)
  | [] => none
  | '}' :: rest => some ([], rest)
  | c :: rest => (scanField rest).map (fun p => (c :: p.1, p.2))

/-- Core of Python `str.format` with a single keyword argument `key=val`,
working on character lists. `fuel` bounds the recursion (each step consumes
at least one character, so `length + 1` fuel never runs out). -/
def pyFmtGo (key : String) (valChars : List Char) : Nat → List Char → Except PyExn (List Char)
  | 0, _ => Except.error (PyExn.valueError "out of fuel")
  | _ + 1, [] => Except.ok []
  | fuel + 1, '{' :: '{' :: rest => (pyFmtGo key valChars fuel rest).map (fun t => '{' :: t)
  | fuel + 1, '}' :: '}' :: rest => (pyFmtGo key valChars fuel rest).map (fun t => '}' :: t)
  | _ + 1, '}' :: _ => Except.error (PyExn.valueError "Single brace encountered in format string")
  | fuel + 1, '{' :: rest =>
    match scanField rest with
    | none => Except.error (PyExn.valueError "Single brace encountered in format string")
    | some (field, rest') =>
      if String.mk field = key then
        (pyFmtGo key valChars fuel rest').map (fun t => valChars ++ t)
      else
        Except.error (PyExn.keyError (String.mk field))
  | fuel + 1, c :: rest => (pyFmtGo key valChars fuel rest).map (fun t => c :: t)

/-- Python `template.format(key=val)` with a single keyword argument. -/
def pyFormat (key val template : String) : Except PyExn String :=
  (pyFmtGo key val.data (template.data.length + 1) template.data).map String.mk

/-- Core of Python `str.replace(pat, rep)` on character lists: replace every
non-overlapping occurrence of `pat`, scanning left to right. `fuel` bounds
the recursion; with a non-empty `pat`, `length + 1` fuel never runs out. -/
def pyReplaceGo (pat rep : List Char) : Nat → List Char → List Char
  | 0, s => s
  | _ + 1, [] => []
  | fuel + 1, c :: rest =>
    if pat ≠ [] ∧ pat.isPrefixOf (c :: rest) then
      rep ++ pyReplaceGo pat rep fuel ((c :: rest).drop pat.length)
    else
      c :: pyReplaceGo pat rep fuel rest

/-- Python `s.replace(pat, rep)` (for the non-empty patterns used in the
source: `"USERNAME"`). -/
def pyReplace (s pat rep : String) : String :=
  ⟨pyReplaceGo pat.data rep.data (s.data.length + 1) s.data⟩

/-- One directory operation performed over the wire by `authenticate`.
`ldap3.Server`/`ldap3.Connection` construction performs no network I/O with
the synchronous strategy; the network is touched by `bind` and `search`. -/
inductive DirOp : Type
  /-- `conn.bind()` for a connection created with `user=dn, password=pw`. -/
  | bind (dn pw : String)
  /-- `conn.search(base, search_scope=BASE, search_filter=filt,
  attributes=['member'])`. -/
  | search (base filt : String)
  deriving DecidableEq, Repr

/-- The directory server as an oracle: the outcome of each `bind`/`search`
call the code could make. `Except.error` models the `ldap3` call raising
(connection refused, TLS failure, …); `Except.ok b` models the call
returning the boolean `b`. -/
structure Directory : Type where
  bindResult : String → String → Except PyExn Bool
  searchResult : String → String → Except PyExn Bool

/-- The `LDAPAuthenticator` configuration traits used by `authenticate`.
`matchesPattern u` stands for the Python `re.match(self.valid_username_regex, u)`
test (truthiness of the match object). -/
structure Config : Type where
  bind_dn_template : String
  allowed_groups : List String
  matchesPattern : String → Bool

/-- The search filter `'(member={userdn})'.format(userdn=userdn)`: the
template is a literal containing exactly the `{userdn}` field, so the format
call always succeeds and yields this concatenation. -/
def searchFilter (userdn : String) : String :=
  "(member=" ++ userdn ++ ")"

/-- The `for group in self.allowed_groups:` loop body of `authenticate`:
search each group in order with a base-scope member filter; return the
username on the first truthy `search`, fall through (`none`) when the list
is exhausted, propagate a raise from `search`. Also returns the trace of
search operations actually issued. -/
def groupLoop (dir : Directory) (username userdn : String) :
    List String → Except PyExn (Option String) × List DirOp
  | [] => (Except.ok none, [])
  | g :: gs =>
    match dir.searchResult g (searchFilter userdn) with
    | Except.error e => (Except.error e, [DirOp.search g (searchFilter userdn)])
    | Except.ok true => (Except.ok (some username), [DirOp.search g (searchFilter userdn)])
    | Except.ok false =>
      let r := groupLoop dir username userdn gs
      (r.1, DirOp.search g (searchFilter userdn) :: r.2)

/-- `LDAPAuthenticator.authenticate`, embedded. Returns the Python result —
`Except.ok v` when the coroutine returns the verdict `v` (`some username` on
success, `none` on rejection), `Except.error e` when it raises — paired with
the trace of directory operations issued. Mirrors the source line by line:
username regex check, empty-password check, `bind_dn_template.format`,
`conn.bind()`, then the `allowed_groups` loop or immediate success. -/
def authenticate (cfg : Config) (dir : Directory) (username : String)
    (password : Option String) : Except PyExn (Option String) × List DirOp :=
  if !cfg.matchesPattern username then
    (Except.ok none, [])
  else
    match password with
    | none => (Except.ok none, [])
    | some p =>
      if pyStrip p = "" then
        (Except.ok none, [])
      else
        match pyFormat "username" username cfg.bind_dn_template with
        | Except.error e => (Except.error e, [])
        | Except.ok userdn =>
          match dir.bindResult userdn p with
          | Except.error e => (Except.error e, [DirOp.bind userdn p])
          | Except.ok false => (Except.ok none, [DirOp.bind userdn p])
          | Except.ok true =>
            if cfg.allowed_groups.isEmpty then
              (Except.ok (some username), [DirOp.bind userdn p])
            else
              let r := groupLoop dir username userdn cfg.allowed_groups
              (r.1, DirOp.bind userdn p :: r.2)

/-- The default `valid_username_regex`, `r'^[a-z][.a-z0-9_-]*$'`: the string
must be non-empty, start with a lowercase ASCII letter, and every further
character must be in the class `[.a-z0-9_-]`. (With the trailing `$` the
`re.match` prefix test is a full match.) -/
def inLowerAZ (c : Char) : Bool := 'a' ≤ c && c ≤ 'z'

/-- Membership in the character class `[.a-z0-9_-]` of the default
username regex. -/
def inTailClass (c : Char) : Bool :=
  c = '.' || ('a' ≤ c && c ≤ 'z') || ('0' ≤ c && c ≤ '9') || c = '_' || c = '-'

/-- `re.match(r'^[a-z][.a-z0-9_-]*$', u)` as a boolean (truthiness of the
match object). -/
def matchesDefaultUsernameRegex (u : String) : Bool :=
  match u.data with
  | [] => false
  | c :: cs => inLowerAZ c && cs.all inTailClass

/-- The state of a `subprocess.Popen` handle. `exitCode` is the status the
process (eventually) exits with; `polled` records whether `poll()`,
`wait()` or `communicate()` has been called on the handle — these are the
only operations that set the `returncode` attribute. -/
structure ProcState : Type where
  exitCode : Int
  polled : Bool

/-- The `Popen.returncode` attribute: `None` until the process status has
been collected by `poll()`/`wait()`/`communicate()`. -/
def ProcState.returncode (p : ProcState) : Option Int :=
  if p.polled then some p.exitCode else none

/-- Python truthiness of `p.returncode` (`None` and `0` are falsy). -/
def returncodeTruthy (p : ProcState) : Bool :=
  match p.returncode with
  | none => false
  | some rc => rc != 0

/-- The configuration traits used by `pre_spawn_start`. -/
structure ProvisionConfig : Type where
  add_local_user : Bool
  add_user_cmd : List String

/-- The command built by `pre_spawn_start`:
`[ arg.replace('USERNAME', name) for arg in self.add_user_cmd ] + [name]`. -/
def buildCmd (template : List String) (name : String) : List String :=
  template.map (fun arg => pyReplace arg "USERNAME" name) ++ [name]

/-- The host environment of `pre_spawn_start`: whether `pwd.getpwnam(name)`
succeeds (account exists), the exit status the launched process eventually
has, and the combined stdout/stderr it produces. -/
structure SpawnEnv : Type where
  userExists : Bool
  runExitCode : List String → Int
  runOutput : List String → String

/-- `LDAPAuthenticator.pre_spawn_start`, embedded. Returns
`Except.error msg` when the Python code raises `RuntimeError(msg)` and
`Except.ok ()` when it returns normally, paired with the list of commands
invoked via `Popen`. Mirrors the source: when `add_local_user` is set and
`pwd.getpwnam` raises `KeyError`, it builds the command, launches it with
`Popen` (which yields a handle whose `returncode` is `None` — the source
never calls `poll()`/`wait()`), executes `time.sleep(5)` (which does not
touch the handle), and then tests `if p.returncode:`. -/
def pre_spawn_start (cfg : ProvisionConfig) (env : SpawnEnv) (name : String) :
    Except String Unit × List (List String) :=
  if cfg.add_local_user then
    if env.userExists then
      (Except.ok (), [])
    else
      let cmd := buildCmd cfg.add_user_cmd name
      let p : ProcState := { exitCode := env.runExitCode cmd, polled := false }
      if returncodeTruthy p then
        (Except.error ("Failed to create system user " ++ name ++ ": " ++ env.runOutput cmd), [cmd])
      else
        (Except.ok (), [cmd])
  else
    (Except.ok (), [])

/-- What §4.5 of the specification requires of the provisioning hook:
wait for the external command to exit, then fail (carrying the captured
output) if and only if the exit status is nonzero. Modelled from the spec,
for comparison with `pre_spawn_start` above. -/
def specProvisionHook (cfg : ProvisionConfig) (env : SpawnEnv) (name : String) :
    Except String Unit × List (List String) :=
  if cfg.add_local_user then
    if env.userExists then
      (Except.ok (), [])
    else
      let cmd := buildCmd cfg.add_user_cmd name
      if env.runExitCode cmd != 0 then
        (Except.error ("Failed to create system user " ++ name ++ ": " ++ env.runOutput cmd), [cmd])
      else
        (Except.ok (), [cmd])
  else
    (Except.ok (), [])


/-! ### Concrete fixtures used by witnesses and counterexamples -/

/-- The DN template of the specification's round-trip example. -/
def dnTemplate : String := "uid={username},ou=people,dc=example,dc=org"

/-- The DN the round-trip example must produce for username `river`. -/
def riverDN : String := "uid=river,ou=people,dc=example,dc=org"

/-- A configuration with the default username regex, the example DN
template and no allowed groups. -/
def cfgBase : Config :=
  { bind_dn_template := dnTemplate
    allowed_groups := []
    matchesPattern := matchesDefaultUsernameRegex }

/-- Two configured groups, checked in this order. -/
def groupG1 : String := "cn=g1,ou=groups,dc=example,dc=org"

/-- Second configured group. -/
def groupG2 : String := "cn=g2,ou=groups,dc=example,dc=org"

/-- `cfgBase` with the two allowed groups `[G1, G2]`. -/
def cfgGroups : Config :=
  { cfgBase with allowed_groups := [groupG1, groupG2] }

/-- A configuration whose DN template holds a placeholder other than
`{username}`. -/
def cfgBadTemplate : Config :=
  { cfgBase with bind_dn_template := "uid={foo},ou=people,dc=example,dc=org" }

/-- A directory for which every bind and every search succeeds. -/
def dirAllOk : Directory :=
  { bindResult := fun _ _ => Except.ok true
    searchResult := fun _ _ => Except.ok true }

/-- A directory that is unreachable: every network operation raises, as
`ldap3` does on connection/TLS failure. -/
def dirConnFail : Directory :=
  { bindResult := fun _ _ => Except.error (PyExn.ldapError "LDAPSocketOpenError")
    searchResult := fun _ _ => Except.error (PyExn.ldapError "LDAPSocketOpenError") }

/-- A directory for which bind succeeds and only `groupG2` reports the
membership search as matching. -/
def dirG2Only : Directory :=
  { bindResult := fun _ _ => Except.ok true
    searchResult := fun base _ => Except.ok (base == groupG2) }

/-- A directory for which bind succeeds and no group search matches. -/
def dirNoMember : Directory :=
  { bindResult := fun _ _ => Except.ok true
    searchResult := fun _ _ => Except.ok false }

/-- Provisioning configuration: local-account creation enabled with the
specification's example command template. -/
def cfgProv : ProvisionConfig :=
  { add_local_user := true
    add_user_cmd := ["adduser", "-q", "USERNAME"] }

/-- A host where the account is missing and the external command exits
with status 1 after printing an error. -/
def envExitOne : SpawnEnv :=
  { userExists := false
    runExitCode := fun _ => 1
    runOutput := fun _ => "adduser: failure" }

/-- A host where the account is missing and the external command succeeds. -/
def envExitZero : SpawnEnv :=
  { userExists := false
    runExitCode := fun _ => 0
    runOutput := fun _ => "" }

/-! ### Helper lemmas -/

/-- When every `search` call returns a boolean (none raises), the group
loop returns a verdict, never an exception. -/
theorem groupLoop_no_raise (dir : Directory) (u dn : String)
    (hsearch : ∀ base filt, ∃ b, dir.searchResult base filt = Except.ok b) :
    ∀ gs : List String, ∃ v, (groupLoop dir u dn gs).1 = Except.ok v := by
  intro gs
  induction gs with
  | nil => exact ⟨none, rfl⟩
  | cons g gs ih =>
    obtain ⟨b, hb⟩ := hsearch g (searchFilter dn)
    cases b with
    | true => exact ⟨some u, by simp [groupLoop, hb]⟩
    | false =>
      obtain ⟨v, hv⟩ := ih
      exact ⟨v, by simp [groupLoop, hb, hv]⟩

/-- When the searches for every group of `pre` report no membership and the
search for `gm` reports membership, the loop stops at `gm` with success,
having issued exactly the searches for `pre` and `gm` (in order) and none
for the groups after `gm`. -/
theorem groupLoop_first_match (dir : Directory) (u dn : String)
    (pre rest : List String) (gm : String)
    (hpre : ∀ g ∈ pre, dir.searchResult g (searchFilter dn) = Except.ok false)
    (hm : dir.searchResult gm (searchFilter dn) = Except.ok true) :
    groupLoop dir u dn (pre ++ gm :: rest) =
      (Except.ok (some u), (pre ++ [gm]).map (fun g => DirOp.search g (searchFilter dn))) := by
  induction pre with
  | nil => simp [groupLoop, hm]
  | cons g pre ih =>
    have hg : dir.searchResult g (searchFilter dn) = Except.ok false :=
      hpre g (List.mem_cons_self g pre)
    have ih' := ih (fun g' hg' => hpre g' (List.mem_cons_of_mem g hg'))
    simp [groupLoop, hg, ih']

/-- When no configured group's search reports membership, the loop exhausts
the whole list, issues one search per group, and falls through with `none`. -/
theorem groupLoop_all_false (dir : Directory) (u dn : String) (gs : List String)
    (hall : ∀ g ∈ gs, dir.searchResult g (searchFilter dn) = Except.ok false) :
    groupLoop dir u dn gs =
      (Except.ok none, gs.map (fun g => DirOp.search g (searchFilter dn))) := by
  induction gs with
  | nil => rfl
  | cons g gs ih =>
    have hg := hall g (List.mem_cons_self g gs)
    have ih' := ih (fun g' hg' => hall g' (List.mem_cons_of_mem g hg'))
    simp [groupLoop, hg, ih']

/-! ### Claim theorems -/

/-- C3: for every username and password, if the username does not match the
configured validation pattern, or the password is absent or trims to the
empty string, then `authenticate` returns the rejection verdict (`none`),
raises nothing, and issues zero directory operations. -/
theorem authenticate_rejects_bad_input_without_directory_ops
    (cfg : Config) (dir : Directory) (u : String) (pw : Option String)
    (h : cfg.matchesPattern u = false ∨ pw = none ∨ ∃ p, pw = some p ∧ pyStrip p = "") :
    authenticate cfg dir u pw = (Except.ok none, []) := by
  rcases h with h | h | ⟨p, rfl, hp⟩
  · simp [authenticate, h]
  · subst h
    cases hm : cfg.matchesPattern u <;> simp [authenticate, hm]
  · cases hm : cfg.matchesPattern u <;> simp [authenticate, hm, hp]

/-- Witness for C3: with the default pattern, username `River` (uppercase
start) with a non-empty password is rejected with an empty trace. -/
theorem authenticate_rejects_bad_input_without_directory_ops_witness :
    authenticate cfgBase dirAllOk "River" (some "hunter2") = (Except.ok none, []) :=
  authenticate_rejects_bad_input_without_directory_ops cfgBase dirAllOk "River"
    (some "hunter2") (Or.inl (by decide))

/-- C4: when the username passes validation, the password is non-blank, the
DN template formats to `dn`, the bind succeeds and no allowed groups are
configured, `authenticate` returns the username and the only directory
operation issued is the bind — no search. -/
theorem authenticate_success_without_groups
    (cfg : Config) (dir : Directory) (u p dn : String)
    (hu : cfg.matchesPattern u = true)
    (hp : pyStrip p ≠ "")
    (hfmt : pyFormat "username" u cfg.bind_dn_template = Except.ok dn)
    (hbind : dir.bindResult dn p = Except.ok true)
    (hgroups : cfg.allowed_groups = []) :
    authenticate cfg dir u (some p) = (Except.ok (some u), [DirOp.bind dn p]) := by
  simp [authenticate, hu, hp, hfmt, hbind, hgroups]

/-- Witness for C4: `river`/`hunter2` on `cfgBase` (no groups) succeeds with
exactly one bind in the trace. -/
theorem authenticate_success_without_groups_witness :
    authenticate cfgBase dirAllOk "river" (some "hunter2") =
      (Except.ok (some "river"), [DirOp.bind riverDN "hunter2"]) :=
  authenticate_success_without_groups cfgBase dirAllOk "river" "hunter2" riverDN
    (by decide) (by decide) rfl rfl rfl

/-- C5: with allowed groups `pre ++ gm :: rest` where no group of `pre`
matches and `gm` matches, `authenticate` returns the username and issues
exactly one bind followed by the searches for `pre` and `gm` in configured
order — `pre.length + 1` searches, the 1-based index of the first matching
group — and no search for any group in `rest`. -/
theorem authenticate_stops_at_first_matching_group
    (cfg : Config) (dir : Directory) (u p dn : String)
    (pre rest : List String) (gm : String)
    (hu : cfg.matchesPattern u = true)
    (hp : pyStrip p ≠ "")
    (hfmt : pyFormat "username" u cfg.bind_dn_template = Except.ok dn)
    (hbind : dir.bindResult dn p = Except.ok true)
    (hgroups : cfg.allowed_groups = pre ++ gm :: rest)
    (hpre : ∀ g ∈ pre, dir.searchResult g (searchFilter dn) = Except.ok false)
    (hm : dir.searchResult gm (searchFilter dn) = Except.ok true) :
    authenticate cfg dir u (some p) =
      (Except.ok (some u),
        DirOp.bind dn p :: (pre ++ [gm]).map (fun g => DirOp.search g (searchFilter dn))) := by
  have hloop := groupLoop_first_match dir u dn pre rest gm hpre hm
  have hne : cfg.allowed_groups.isEmpty = false := by
    rw [hgroups]; cases pre <;> rfl
  simp [authenticate, hu, hp, hfmt, hbind, hne, hgroups, hloop]

/-- Witness for C5: groups `[G1, G2]`, membership only in `G2`: the verdict
is the username and the trace holds the bind plus both searches (two
searches — the 1-based index of `G2`). -/
theorem authenticate_stops_at_first_matching_group_witness :
    authenticate cfgGroups dirG2Only "river" (some "hunter2") =
      (Except.ok (some "river"),
        DirOp.bind riverDN "hunter2" ::
          ([groupG1] ++ [groupG2]).map (fun g => DirOp.search g (searchFilter riverDN))) :=
  authenticate_stops_at_first_matching_group cfgGroups dirG2Only "river" "hunter2"
    riverDN [groupG1] [] groupG2 (by decide) (by decide) rfl rfl rfl
    (by intro g hg; simp at hg; subst hg; rfl) rfl

/-- C6: with a non-empty allowed-group list none of whose searches report
membership, `authenticate` exhausts the list — one search per configured
group, in order — and returns the rejection verdict (`none`). -/
theorem authenticate_rejects_when_no_group_matches
    (cfg : Config) (dir : Directory) (u p dn : String)
    (hu : cfg.matchesPattern u = true)
    (hp : pyStrip p ≠ "")
    (hfmt : pyFormat "username" u cfg.bind_dn_template = Except.ok dn)
    (hbind : dir.bindResult dn p = Except.ok true)
    (hne : cfg.allowed_groups ≠ [])
    (hall : ∀ g ∈ cfg.allowed_groups, dir.searchResult g (searchFilter dn) = Except.ok false) :
    authenticate cfg dir u (some p) =
      (Except.ok none,
        DirOp.bind dn p ::
          cfg.allowed_groups.map (fun g => DirOp.search g (searchFilter dn))) := by
  have hloop := groupLoop_all_false dir u dn cfg.allowed_groups hall
  have hne' : cfg.allowed_groups.isEmpty = false := by
    cases h : cfg.allowed_groups with
    | nil => exact absurd h hne
    | cons g gs => rfl
  simp [authenticate, hu, hp, hfmt, hbind, hne', hloop]

/-- Witness for C6: groups `[G1, G2]`, member of neither: rejection, with
the bind and both searches in the trace. -/
theorem authenticate_rejects_when_no_group_matches_witness :
    authenticate cfgGroups dirNoMember "river" (some "hunter2") =
      (Except.ok none,
        DirOp.bind riverDN "hunter2" ::
          cfgGroups.allowed_groups.map (fun g => DirOp.search g (searchFilter riverDN))) :=
  authenticate_rejects_when_no_group_matches cfgGroups dirNoMember "river" "hunter2"
    riverDN (by decide) (by decide) rfl rfl (by decide)
    (by intro g hg; rfl)

/-- C1, counterexample: the claim that `authenticate` never raises is false
on the code. With a valid credential and an unreachable directory server,
`conn.bind()` raises (as `ldap3` does on connection/TLS failure) and
`authenticate` propagates the exception instead of returning a verdict —
there is no try/except anywhere in the method. -/
theorem authenticate_raises_on_connection_failure :
    (authenticate cfgBase dirConnFail "river" (some "hunter2")).1 =
      Except.error (PyExn.ldapError "LDAPSocketOpenError") := rfl

/-- C1, amended: provided the DN template formats successfully and no
directory call itself raises, `authenticate` returns a verdict — the
username or the rejection value — for every input: validation failures,
bind failure and group mismatch are all recovered into the uniform
rejection verdict. (Connection/TLS failures raised by the directory layer,
and template-formatting errors, propagate out of `authenticate` instead.) -/
theorem authenticate_returns_verdict_when_directory_ok
    (cfg : Config) (dir : Directory) (u : String) (pw : Option String)
    (hfmt : ∃ dn, pyFormat "username" u cfg.bind_dn_template = Except.ok dn)
    (hbind : ∀ dn p, ∃ b, dir.bindResult dn p = Except.ok b)
    (hsearch : ∀ base filt, ∃ b, dir.searchResult base filt = Except.ok b) :
    ∃ v : Option String, (authenticate cfg dir u pw).1 = Except.ok v := by
  by_cases hm : cfg.matchesPattern u
  · cases pw with
    | none => exact ⟨none, by simp [authenticate, hm]⟩
    | some p =>
      by_cases hp : pyStrip p = ""
      · exact ⟨none, by simp [authenticate, hm, hp]⟩
      · obtain ⟨dn, hdn⟩ := hfmt
        obtain ⟨b, hb⟩ := hbind dn p
        cases b with
        | false => exact ⟨none, by simp [authenticate, hm, hp, hdn, hb]⟩
        | true =>
          by_cases hg : cfg.allowed_groups.isEmpty
          · exact ⟨some u, by simp [authenticate, hm, hp, hdn, hb, hg]⟩
          · obtain ⟨v, hv⟩ := groupLoop_no_raise dir u dn hsearch cfg.allowed_groups
            exact ⟨v, by simp [authenticate, hm, hp, hdn, hb, hg, hv]⟩
  · exact ⟨none, by simp [authenticate, hm]⟩

/-- Witness for the amended C1: on `cfgBase` with a reachable directory,
`authenticate` returns a verdict for `river`/`hunter2`. -/
theorem authenticate_returns_verdict_when_directory_ok_witness :
    ∃ v : Option String, (authenticate cfgBase dirAllOk "river" (some "hunter2")).1 = Except.ok v :=
  authenticate_returns_verdict_when_directory_ok cfgBase dirAllOk "river" (some "hunter2")
    ⟨riverDN, rfl⟩ (fun _ _ => ⟨true, rfl⟩) (fun _ _ => ⟨true, rfl⟩)

/-- C7: the Identity Resolver round-trip. `str.format` on the DN template
`uid={username},ou=people,dc=example,dc=org` with username `river` yields
exactly `uid=river,ou=people,dc=example,dc=org`, and it agrees with the
plain literal replacement of the `{username}` placeholder in the template
(`str.replace`), i.e. the substitution is literal and nothing else happens
to this template. -/
theorem bind_dn_template_literal_substitution :
    pyFormat "username" "river" dnTemplate = Except.ok riverDN ∧
    pyReplace dnTemplate "{username}" "river" = riverDN ∧
    riverDN = "uid=river,ou=people,dc=example,dc=org" :=
  ⟨rfl, rfl, rfl⟩

/-- C8: the provisioning hook builds the invoked argument vector by
replacing `USERNAME` in every template argument and appending the username:
template `["adduser","-q","USERNAME"]` with `river` yields exactly
`["adduser","-q","river","river"]`, and that is precisely the command
`pre_spawn_start` hands to `Popen`. -/
theorem add_user_cmd_substitution :
    buildCmd ["adduser", "-q", "USERNAME"] "river" = ["adduser", "-q", "river", "river"] ∧
    (pre_spawn_start cfgProv envExitZero "river").2 = [["adduser", "-q", "river", "river"]] :=
  ⟨rfl, rfl⟩

/-- Characters meaningful in LDAP query syntax that the default pattern
must exclude: parentheses, backslash and asterisk. -/
def ldapMetaChars : List Char := ['(', ')', '\\', '*']

/-- A character in the class `[a-z]` is not an LDAP metacharacter. -/
theorem inLowerAZ_no_meta (c : Char) (h : inLowerAZ c = true) :
    ldapMetaChars.contains c = false := by
  simp only [inLowerAZ, Bool.and_eq_true, decide_eq_true_eq] at h
  obtain ⟨h1, _⟩ := h
  have hlt : ∀ d ∈ ldapMetaChars, d < 'a' := by decide
  simp only [List.contains_eq_any_beq, List.any_eq_false, beq_iff_eq]
  intro d hd he
  exact absurd h1 (not_le.mpr (he ▸ hlt d hd))

/-- A character in the class `[.a-z0-9_-]` is not an LDAP metacharacter. -/
theorem inTailClass_no_meta (c : Char) (h : inTailClass c = true) :
    ldapMetaChars.contains c = false := by
  have key : ∀ e ∈ ldapMetaChars,
      e < 'a' ∧ (e < '0' ∨ '9' < e) ∧ e ≠ '.' ∧ e ≠ '_' ∧ e ≠ '-' := by decide
  simp only [inTailClass, Bool.or_eq_true, Bool.and_eq_true, decide_eq_true_eq] at h
  simp only [List.contains_eq_any_beq, List.any_eq_false, beq_iff_eq]
  intro d hd he
  subst he
  rcases h with ((((h | ⟨h1, _⟩) | ⟨h1, h2⟩) | h) | h)
  · exact absurd h (key c hd).2.2.1
  · exact absurd h1 (not_le.mpr (key c hd).1)
  · rcases (key c hd).2.1 with hlt | hgt
    · exact absurd h1 (not_le.mpr hlt)
    · exact absurd h2 (not_le.mpr hgt)
  · exact absurd h (key c hd).2.2.2.1
  · exact absurd h (key c hd).2.2.2.2

/-- C9: every username accepted by the default validation pattern
`^[a-z][.a-z0-9_-]*$` contains no parenthesis, backslash or asterisk — no
character meaningful in directory-query syntax (these are the characters the
spec names), so no accepted username can alter the structure of the DN or
search filter it is substituted into. -/
theorem default_regex_accepts_no_ldap_metacharacters
    (u : String) (h : matchesDefaultUsernameRegex u = true) :
    u.data.all (fun c => !(ldapMetaChars.contains c)) = true := by
  unfold matchesDefaultUsernameRegex at h
  cases hu : u.data with
  | nil => rw [hu] at h; exact absurd h (by decide)
  | cons c cs =>
    rw [hu] at h
    simp only [Bool.and_eq_true] at h
    obtain ⟨hc, hcs⟩ := h
    simp only [List.all_cons, Bool.and_eq_true, Bool.not_eq_true']
    refine ⟨inLowerAZ_no_meta c hc, ?_⟩
    simp only [List.all_eq_true, Bool.not_eq_true'] at hcs ⊢
    intro d hd
    exact inTailClass_no_meta d (hcs d hd)

/-- Witness for C9: `river-01.a_b` is accepted by the default pattern and
contains no LDAP metacharacter. -/
theorem default_regex_accepts_no_ldap_metacharacters_witness :
    matchesDefaultUsernameRegex "river-01.a_b" = true ∧
    ("river-01.a_b".data.all (fun c => !(ldapMetaChars.contains c)) = true) :=
  ⟨by decide, default_regex_accepts_no_ldap_metacharacters "river-01.a_b" (by decide)⟩

/-- C10: with a DN template holding a placeholder other than `{username}`
(here `{foo}`) and a credential passing both validation checks,
`authenticate` raises from the template-formatting step (`str.format`
raises KeyError) before any directory operation, instead of returning a
verdict. -/
theorem authenticate_raises_on_foreign_placeholder :
    authenticate cfgBadTemplate dirAllOk "river" (some "hunter2") =
      (Except.error (PyExn.keyError "foo"), []) := rfl

/-- C2: the provisioning hook does not wait for the external command and
never fails, whatever the exit status. `Popen` is followed only by
`time.sleep(5)`; `poll()`/`wait()` is never called, so `p.returncode` is
still `None` when tested and the `RuntimeError` branch is dead: with the
account missing and a command exiting nonzero (status 1), the code path
returns success, where the specified hook (`specProvisionHook`, which waits
and checks the real exit status) fails with the captured output. -/
theorem pre_spawn_start_ignores_nonzero_exit :
    (pre_spawn_start cfgProv envExitOne "river").1 = Except.ok () ∧
    (specProvisionHook cfgProv envExitOne "river").1 =
      Except.error "Failed to create system user river: adduser: failure" :=
  ⟨rfl, rfl⟩
